import Mathlib

/-!
Verification of the GSC Analyzer metrics pipeline.

Shallow embedding of `src/gsc_dashboard.py`, a Streamlit dashboard over a
Google Search Console export.  The script has two near-duplicate variants:

* tab1, the CSV analyzer (lines 27 to 101): coerces columns with
  `pd.to_numeric(errors="coerce")`, drops rows whose four numeric fields are
  all NaN, filters rows for the KPI display, and classifies rows into
  opportunity and alert buckets.
* tab2, the Excel analyzer, `Queries` sheet (lines 106 to 207): coerces with
  `astype(float)` (which raises on unparseable text), rescales the CTR column
  when its maximum is at most 1, drops rows whose `query` and four numeric
  fields are all NaN, and classifies rows with slightly different predicates.

Numbers are modelled as `ℚ`; a pandas `NaN` cell is `Option.none`.  Pandas
comparisons against `NaN` are false, sums skip `NaN`, and `max` skips `NaN`
(yielding `NaN` when no finite value exists); the `Option` combinators below
reproduce exactly that behaviour.
-/

namespace GSC

/-- ASCII lowercase of a character, as Python `str.lower` acts on the ASCII
headers and query strings this app manipulates. -/
def lowerChar (c : Char) : Char :=
  if 'A' ≤ c ∧ c ≤ 'Z' then Char.ofNat (c.toNat + 32) else c

/-- Python `str.strip()` on a character list: drop leading and trailing
whitespace. -/
def trimChars (cs : List Char) : List Char :=
  ((cs.dropWhile Char.isWhitespace).reverse.dropWhile Char.isWhitespace).reverse

/-- Pandas `.str.replace(c, "", regex=False)` for a one-character pattern:
remove every occurrence of the character (the app only ever replaces `","`
and `"%"` by the empty string, lines 38, 40, 120, 122 to 128). -/
def stripChar (c : Char) (s : String) : String :=
  String.mk (s.toList.filter (fun ch => ch ≠ c))

/-- Header normalization, lines 34 and 116:
`col.strip().lower().replace(" ", "_")`. -/
def normalizeHeader (s : String) : String :=
  String.mk (((trimChars s.toList).map lowerChar).map
    (fun ch => if ch = ' ' then '_' else ch))

/-- Lowercase an entire string (used for the case-insensitive query filter,
lines 52 and 143). -/
def lowerStr (s : String) : String :=
  String.mk (s.toList.map lowerChar)

/-- Digit-level decomposition of a decimal literal: the sign, the value and
the digit count of the integer and fractional parts.  Kept free of `ℚ` so
that concrete runs of the parser reduce in the kernel. -/
structure ParsedNum where
  sign : Bool
  iVal : ℕ
  fVal : ℕ
  fLen : ℕ
deriving DecidableEq, Repr

/-- Numeric value of a digit list read in base 10 (an empty list counts as
0; emptiness is checked separately by the parser). -/
def digitsVal (cs : List Char) : ℕ :=
  cs.foldl (fun a c => 10 * a + (c.toNat - 48)) 0

/-- Modelled from the spec: section 4.2 says numeric cells are parsed "as a
real number".  The actual parsing is performed by the host runtime
(`float()` / `pd.to_numeric`), which is not part of `src/`; this models its
behaviour on plain decimal literals: an optional sign, then digits with at
most one decimal point and at least one digit.  Exponent notation and
infinities are not modelled; the text `"nan"` (the `astype(str)` image of a
missing cell) is unparseable here and is handled by the callers. -/
def parseDec (cs : List Char) : Option ParsedNum :=
  let sb : Bool × List Char :=
    match cs with
    | c :: t => if c = '-' then (false, t) else if c = '+' then (true, t) else (true, cs)
    | [] => (true, [])
  let body := sb.2
  let intPart := body.takeWhile (fun ch => ch ≠ '.')
  let rest := body.dropWhile (fun ch => ch ≠ '.')
  match rest with
  | [] =>
      if intPart ≠ [] ∧ intPart.all Char.isDigit then
        some ⟨sb.1, digitsVal intPart, 0, 0⟩
      else none
  | _ :: fracPart =>
      if (intPart ≠ [] ∨ fracPart ≠ []) ∧ ¬ fracPart.contains '.' ∧
          intPart.all Char.isDigit ∧ fracPart.all Char.isDigit then
        some ⟨sb.1, digitsVal intPart, digitsVal fracPart, fracPart.length⟩
      else none

/-- Rational value of a parsed decimal literal. -/
def ratOfParsed (d : ParsedNum) : ℚ :=
  (if d.sign then 1 else -1) * ((d.iVal : ℚ) + (d.fVal : ℚ) / 10 ^ d.fLen)

/-- Parse a string as a real number; `none` when unparseable. -/
def parseFloat (s : String) : Option ℚ :=
  (parseDec s.toList).map ratOfParsed

/-- Pandas `pd.to_numeric(x, errors="coerce")` on one cell (tab1, lines 39
and 41): an unparseable cell — including the `"nan"` text of a missing
cell — becomes `NaN` (`none`) silently, never an error. -/
def toNumericCoerce (s : String) : Option ℚ := parseFloat s

/-- Pandas `.astype(float)` on one cell (tab2, lines 120 and 122 to 128):
the `"nan"` text of a missing cell parses to `NaN` (`float("nan")`
succeeds), while any other unparseable cell raises `ValueError`, modelled
as `Except.error`. -/
def astypeFloat (s : String) : Except Unit (Option ℚ) :=
  if s = "nan" then .ok none
  else
    match parseFloat s with
    | some q => .ok (some q)
    | none => .error ()

/-- The tab1 coercion of a `clicks`, `impressions` or `position` cell,
lines 38 and 39: strip commas, then `pd.to_numeric(errors="coerce")`. -/
def tab1Num (s : String) : Option ℚ := toNumericCoerce (stripChar ',' s)

/-- The tab1 coercion of a `ctr` cell, lines 40 and 41: strip `%`, strip
commas, then `pd.to_numeric(errors="coerce")`. -/
def tab1Ctr (s : String) : Option ℚ := toNumericCoerce (stripChar ',' (stripChar '%' s))

/-- The tab2 coercion of a `clicks`, `impressions` or `position` cell,
line 120: strip commas, then `astype(float)`. -/
def tab2Num (s : String) : Except Unit (Option ℚ) := astypeFloat (stripChar ',' s)

/-- The tab2 coercion of a `ctr` cell, lines 122 to 128: strip `%`, strip
commas, then `astype(float)`. -/
def tab2Ctr (s : String) : Except Unit (Option ℚ) := astypeFloat (stripChar ',' (stripChar '%' s))

/-- A raw table row as it stands right before numeric coercion: the numeric
cells have been passed through `astype(str)`, so each is a string and a
missing cell reads `"nan"`; the identifier column is untouched, so a missing
identifier is `none`. -/
structure RawRow where
  query : Option String
  clicks : String
  impressions : String
  ctr : String
  position : String
deriving DecidableEq, Repr

/-- A coerced table row: `none` models a pandas `NaN` cell. -/
structure Row where
  query : Option String
  clicks : Option ℚ
  impressions : Option ℚ
  ctr : Option ℚ
  position : Option ℚ
deriving DecidableEq, Repr

/-- The tab1 coercion loop, lines 37 to 41, applied to one row. -/
def coerceRowTab1 (r : RawRow) : Row :=
  { query := r.query
    clicks := tab1Num r.clicks
    impressions := tab1Num r.impressions
    ctr := tab1Ctr r.ctr
    position := tab1Num r.position }

/-- The tab2 coercion loop, lines 119 to 128, applied to one row; an
unparseable cell raises, aborting the whole load. -/
def coerceRowTab2 (r : RawRow) : Except Unit Row := do
  let c ← tab2Num r.clicks
  let i ← tab2Num r.impressions
  let p ← tab2Num r.position
  let ct ← tab2Ctr r.ctr
  pure { query := r.query, clicks := c, impressions := i, ctr := ct, position := p }

/-- Line 42: `df.dropna(subset=["clicks", "impressions", "ctr", "position"],
how="all")` — keep a row when at least one of the four numeric fields is
known. -/
def dropnaTab1 (df : List Row) : List Row :=
  df.filter (fun r =>
    r.clicks.isSome || r.impressions.isSome || r.ctr.isSome || r.position.isSome)

/-- Line 133: `queries_df.dropna(subset=["query", "clicks", "impressions",
"ctr", "position"], how="all")` — the subset also contains the `query`
column, so a row is kept when any of the five fields is known. -/
def dropnaQueries (df : List Row) : List Row :=
  df.filter (fun r =>
    r.query.isSome || r.clicks.isSome || r.impressions.isSome ||
      r.ctr.isSome || r.position.isSome)

/-- Pandas `Series.max()`: the maximum of the known values, skipping `NaN`;
`NaN` (here `none`) when no known value exists. -/
def colMax : List (Option ℚ) → Option ℚ
  | [] => none
  | none :: t => colMax t
  | some v :: t =>
      match colMax t with
      | none => some v
      | some w => some (max v w)

/-- The rescale condition of line 130: `queries_df["ctr"].max() <= 1`; a
comparison against `NaN` (no finite value at all) is false. -/
def ctrMaxLeOne (df : List Row) : Bool :=
  match colMax (df.map (fun r => r.ctr)) with
  | some m => decide (m ≤ 1)
  | none => false

/-- Multiply the ctr field of one row by 100 (`NaN * 100` stays `NaN`). -/
def scaleCtrRow (r : Row) : Row :=
  { r with ctr := r.ctr.map (fun v => v * 100) }

/-- Lines 130 and 131: `if queries_df["ctr"].max() <= 1:
queries_df["ctr"] *= 100` — a single dataset-global decision. -/
def tab2Rescale (df : List Row) : List Row :=
  if ctrMaxLeOne df then df.map scaleCtrRow else df

/-- The tab1 load pipeline after `read_csv`: coerce every row
(lines 37 to 41), then drop the all-NaN rows (line 42). -/
def tab1Pipeline (raw : List RawRow) : List Row :=
  dropnaTab1 (raw.map coerceRowTab1)

/-- The tab2 `Queries` load pipeline: coerce every row (lines 119 to 128,
aborting on the first unparseable cell), rescale the ctr column
(lines 130 and 131), then drop the all-NaN rows (line 133). -/
def tab2QueriesPipeline (raw : List RawRow) : Except Unit (List Row) := do
  let rows ← raw.mapM coerceRowTab2
  pure (dropnaQueries (tab2Rescale rows))

/-- Pandas `series < b` on one cell: false for `NaN`. -/
def optLt (x : Option ℚ) (b : ℚ) : Bool :=
  match x with
  | some v => decide (v < b)
  | none => false

/-- Pandas `series > b` on one cell: false for `NaN`. -/
def optGt (x : Option ℚ) (b : ℚ) : Bool :=
  match x with
  | some v => decide (b < v)
  | none => false

/-- Pandas `series >= b` on one cell: false for `NaN`. -/
def optGe (x : Option ℚ) (b : ℚ) : Bool :=
  match x with
  | some v => decide (b ≤ v)
  | none => false

/-- Pandas `series <= b` on one cell: false for `NaN`. -/
def optLe (x : Option ℚ) (b : ℚ) : Bool :=
  match x with
  | some v => decide (v ≤ b)
  | none => false

/-- Pandas `series.between(lo, hi)` on one cell, inclusive on both ends by
default (line 204); false for `NaN`. -/
def optBetween (x : Option ℚ) (lo hi : ℚ) : Bool :=
  match x with
  | some v => decide (lo ≤ v) && decide (v ≤ hi)
  | none => false

/-- Pandas `Series.sum()`: sum of the known values, skipping `NaN`; 0 for a
column with no known value. -/
def colSum (xs : List (Option ℚ)) : ℚ :=
  xs.foldr (fun x a => match x with | some v => v + a | none => a) 0

/-- The elementwise product of two columns of one row (`NaN` when either
factor is `NaN`), as in `df["ctr"] * df["impressions"]`. -/
def mulCells (x y : Option ℚ) : Option ℚ :=
  match x, y with
  | some a, some b => some (a * b)
  | _, _ => none

/-- Line 56: `total_clicks = df_filtered["clicks"].sum()`. -/
def total_clicks (df : List Row) : ℚ :=
  colSum (df.map (fun r => r.clicks))

/-- Line 57: `total_impressions = df_filtered["impressions"].sum()`. -/
def total_impressions (df : List Row) : ℚ :=
  colSum (df.map (fun r => r.impressions))

/-- Lines 58 and 148: `(df["ctr"] * df["impressions"]).sum() /
total_impressions if total_impressions else 0`. -/
def avg_ctr (df : List Row) : ℚ :=
  if total_impressions df ≠ 0 then
    colSum (df.map (fun r => mulCells r.ctr r.impressions)) / total_impressions df
  else 0

/-- Lines 59 and 149: the same weighted mean with `position` in place of
`ctr`. -/
def avg_position (df : List Row) : ℚ :=
  if total_impressions df ≠ 0 then
    colSum (df.map (fun r => mulCells r.position r.impressions)) / total_impressions df
  else 0

/-- Decidable substring test on character lists (prefix at some suffix). -/
def isPrefixList : List Char → List Char → Bool
  | [], _ => true
  | _ :: _, [] => false
  | a :: as, b :: bs => a = b && isPrefixList as bs

/-- Decidable substring test: the needle occurs somewhere in the hay. -/
def isInfixList (n : List Char) : List Char → Bool
  | [] => isPrefixList n []
  | c :: t => isPrefixList n (c :: t) || isInfixList n t

/-- The special characters of the host regex language.  Pandas
`str.contains` defaults to `regex=True`, so a keyword holding any of these
is interpreted as a regular expression (and an ill-formed one raises); a
keyword free of them matches as literal text. -/
def regexMetachars : List Char :=
  ['.', '^', '$', '*', '+', '?', '\x7b', '\x7d', '[', ']', '\\', '|', '(', ')']

/-- Keywords on which the embedding of `str.contains` below is faithful:
every character is ASCII and none is a regex metacharacter.  For such a
keyword the regex search performed by pandas (`regex=True` with
`re.IGNORECASE` from `case=False`) coincides with case-insensitive literal
substring containment on the ASCII text this app manipulates.  Keywords with
metacharacters (interpreted as regexes, or raising `re.error` when
ill-formed) are outside the model, and the theorems that quantify over
keywords assume this predicate. -/
def isLiteralKeyword (kw : String) : Bool :=
  kw.toList.all (fun c => decide (c.toNat ≤ 127) && decide (c ∉ regexMetachars))

/-- Pandas `str.contains(kw, case=False, na=False)` on one cell (lines 52
and 143), for a keyword satisfying `isLiteralKeyword`: lowercase both sides
and test containment; false for a missing query.  For keywords outside that
domain pandas treats the keyword as a regular expression (`regex=True` is
the default), which this definition does not model. -/
def queryContains (q : Option String) (kw : String) : Bool :=
  match q with
  | some s => isInfixList (lowerStr kw).toList (lowerStr s).toList
  | none => false

/-- Lines 48 to 52: start from the full table; when the minimum-impressions
slider is positive, keep rows with `impressions >= min_impr`; when the
keyword box is nonempty, keep rows whose query matches the keyword
case-insensitively (faithful for keywords satisfying `isLiteralKeyword`,
see `queryContains`). -/
def df_filtered (df : List Row) (min_impr : ℕ) (keyword_filter : String) : List Row :=
  let d1 := if 0 < min_impr then df.filter (fun r => optGe r.impressions (min_impr : ℚ)) else df
  if keyword_filter ≠ "" then d1.filter (fun r => queryContains r.query keyword_filter) else d1

/-- Line 73: `df[(df["position"] >= 5) & (df["position"] <= 15) &
(df["ctr"] < 5)]`. -/
def opportunities (df : List Row) : List Row :=
  df.filter (fun r => optGe r.position 5 && optLe r.position 15 && optLt r.ctr 5)

/-- Line 85: `df[(df["impressions"] > 1000) & (df["ctr"] < 1.0)]`. -/
def low_ctr_alerts (df : List Row) : List Row :=
  df.filter (fun r => optGt r.impressions 1000 && optLt r.ctr 1)

/-- Line 86: `df[(df["impressions"] > 1000) & (df["clicks"] < 10) &
(df["ctr"] < 1.0)]`. -/
def surge_alerts (df : List Row) : List Row :=
  df.filter (fun r => optGt r.impressions 1000 && optLt r.clicks 10 && optLt r.ctr 1)

/-- Line 87: `df[(df["ctr"] > 10.0) & (df["position"] > 10)]`. -/
def booster_alerts (df : List Row) : List Row :=
  df.filter (fun r => optGt r.ctr 10 && optGt r.position 10)

/-- Line 204: `queries_df[(queries_df["position"].between(5, 15)) &
(queries_df["ctr"] < 5)]`. -/
def opp (df : List Row) : List Row :=
  df.filter (fun r => optBetween r.position 5 15 && optLt r.ctr 5)

/-- Line 158: `queries_df[(queries_df["ctr"] < 1.0) &
(queries_df["impressions"] > 1000)]`. -/
def critical (df : List Row) : List Row :=
  df.filter (fun r => optLt r.ctr 1 && optGt r.impressions 1000)

/-- Line 159: `queries_df[(queries_df["impressions"] > 1000) &
(queries_df["clicks"] < 10)]` — no ctr condition in this variant. -/
def warnings (df : List Row) : List Row :=
  df.filter (fun r => optGt r.impressions 1000 && optLt r.clicks 10)

/-- Line 160: `queries_df[(queries_df["ctr"] > 10.0) &
(queries_df["position"] > 10)]`. -/
def wins (df : List Row) : List Row :=
  df.filter (fun r => optGt r.ctr 10 && optGt r.position 10)

/-- Everything the tab1 render pass computes from the loaded table and the
two filter widgets (lines 48 to 87): the filtered subset with its KPIs, and
the classification buckets, which are taken from the unfiltered table. -/
structure Tab1Results where
  filteredRows : List Row
  totalClicks : ℚ
  totalImpressions : ℚ
  avgCtr : ℚ
  avgPosition : ℚ
  oppRows : List Row
  lowCtrRows : List Row
  surgeRows : List Row
  boosterRows : List Row
deriving Repr

/-- The tab1 render pass, lines 48 to 87. -/
def tab1Analyze (df : List Row) (min_impr : ℕ) (keyword_filter : String) : Tab1Results :=
  let dfF := df_filtered df min_impr keyword_filter
  { filteredRows := dfF
    totalClicks := total_clicks dfF
    totalImpressions := total_impressions dfF
    avgCtr := avg_ctr dfF
    avgPosition := avg_position dfF
    oppRows := opportunities df
    lowCtrRows := low_ctr_alerts df
    surgeRows := surge_alerts df
    boosterRows := booster_alerts df }

/-- Lines 34 and 35 applied to the header row: normalize every header, then
rename `top_queries` to `query`. -/
def canonicalHeaders (headers : List String) : List String :=
  (headers.map normalizeHeader).map (fun h => if h = "top_queries" then "query" else h)

/-- The required-column set of the CSV variant (spec sections 4.1 and 6). -/
def requiredColumns : List String := ["query", "clicks", "impressions", "ctr", "position"]

/-- Modelled from the spec: the required-column validation described in
sections 4.1, 6 and 7 of the spec is not present in `src/gsc_dashboard.py`
(the spec describes several near-duplicate dashboard scripts, and only one
is under `src/`).  Per the spec, after header normalization the loader
checks that every required column is present and reports the missing
ones. -/
def missingColumns (headers : List String) : List String :=
  requiredColumns.filter (fun c => decide (c ∉ canonicalHeaders headers))

/-- Modelled from the spec: the validating CSV loader — on a missing
required column, processing halts with a MissingColumns error naming the
missing columns and no table (hence no aggregate, classification or export)
is produced; otherwise the tab1 pipeline runs. -/
def loadCSVChecked (headers : List String) (raw : List RawRow) :
    Except (List String) (List Row) :=
  if missingColumns headers = [] then .ok (tab1Pipeline raw)
  else .error (missingColumns headers)

/-- Definition written from the spec wording (section 4.4): weighted average
CTR is the sum of `ctr * impressions` divided by the sum of `impressions`,
with unknown values excluded from the sums (section 7). -/
def specWeightedAvgCtr (df : List Row) : ℚ :=
  (df.filterMap (fun r => mulCells r.ctr r.impressions)).sum /
    (df.filterMap (fun r => r.impressions)).sum

/-- Definition written from the spec wording (section 4.4): weighted average
position, identically with `position` in place of `ctr`. -/
def specWeightedAvgPosition (df : List Row) : ℚ :=
  (df.filterMap (fun r => mulCells r.position r.impressions)).sum /
    (df.filterMap (fun r => r.impressions)).sum

/-- Example row with position 8 and ctr 3 (an opportunity). -/
def oppRow : Row := ⟨some "keyword a", some 20, some 100, some 3, some 8⟩

/-- Example row with position 8 and ctr 6 (not an opportunity). -/
def noOppRow : Row := ⟨some "keyword b", some 20, some 100, some 6, some 8⟩

/-- Example row with impressions 2000, ctr 0.5 and clicks 5. -/
def alertRow : Row := ⟨some "keyword c", some 5, some 2000, some (1/2), some 1⟩

/-- Example row whose ctr failed to parse (a retained partial row). -/
def noCtrRow : Row := ⟨some "keyword d", some 5, some 2000, none, some 8⟩

/-- Example row whose impressions cell failed to parse. -/
def unknownImprRow : Row := ⟨some "query text", some 5, none, some 2, some 3⟩

/-- Example row with a known query and all four numeric fields unknown. -/
def allNanButQueryRow : Row := ⟨some "query only", none, none, none, none⟩

/-- Example row whose query matches the keyword filter. -/
def kwRow : Row := ⟨some "Alpha Query", some 1, some 50, some 2, some 3⟩

/-- Example row whose ctr is a fraction-scale value. -/
def fractionCtrRow : Row := ⟨some "q", some 1, some 2, some (1/2), some 3⟩

/-- Raw CSV row whose ctr text is `"0.5"` (fraction-scale dataset). -/
def rawHalf : RawRow := ⟨some "q", "10", "100", "0.5", "3"⟩

/-- Raw row whose clicks cell is unparseable text. -/
def rawBad : RawRow := ⟨some "q", "abc", "100", "2", "3"⟩

end GSC

namespace GSC

lemma optLt_iff (x : Option ℚ) (b : ℚ) : optLt x b = true ↔ ∃ v, x = some v ∧ v < b := by
  cases x <;> simp [optLt]

lemma optGt_iff (x : Option ℚ) (b : ℚ) : optGt x b = true ↔ ∃ v, x = some v ∧ b < v := by
  cases x <;> simp [optGt]

lemma optGe_iff (x : Option ℚ) (b : ℚ) : optGe x b = true ↔ ∃ v, x = some v ∧ b ≤ v := by
  cases x <;> simp [optGe]

lemma optLe_iff (x : Option ℚ) (b : ℚ) : optLe x b = true ↔ ∃ v, x = some v ∧ v ≤ b := by
  cases x <;> simp [optLe]

lemma optBetween_iff (x : Option ℚ) (lo hi : ℚ) :
    optBetween x lo hi = true ↔ ∃ v, x = some v ∧ lo ≤ v ∧ v ≤ hi := by
  cases x <;> simp [optBetween]

lemma mem_opportunities_iff (df : List Row) (r : Row) :
    r ∈ opportunities df ↔
      r ∈ df ∧ (∃ p, r.position = some p ∧ 5 ≤ p ∧ p ≤ 15) ∧
        (∃ c, r.ctr = some c ∧ c < 5) := by
  cases hp : r.position <;> cases hc : r.ctr <;>
    simp [opportunities, List.mem_filter, optGe, optLe, optLt, hp, hc, and_assoc]

lemma mem_opp_iff (df : List Row) (r : Row) :
    r ∈ opp df ↔
      r ∈ df ∧ (∃ p, r.position = some p ∧ 5 ≤ p ∧ p ≤ 15) ∧
        (∃ c, r.ctr = some c ∧ c < 5) := by
  cases hp : r.position <;> cases hc : r.ctr <;>
    simp [opp, List.mem_filter, optBetween, optLt, hp, hc, and_assoc]

lemma mem_low_ctr_alerts_iff (df : List Row) (r : Row) :
    r ∈ low_ctr_alerts df ↔
      r ∈ df ∧ (∃ i, r.impressions = some i ∧ 1000 < i) ∧
        (∃ c, r.ctr = some c ∧ c < 1) := by
  cases hi : r.impressions <;> cases hc : r.ctr <;>
    simp [low_ctr_alerts, List.mem_filter, optGt, optLt, hi, hc, and_assoc]

lemma mem_critical_iff (df : List Row) (r : Row) :
    r ∈ critical df ↔
      r ∈ df ∧ (∃ i, r.impressions = some i ∧ 1000 < i) ∧
        (∃ c, r.ctr = some c ∧ c < 1) := by
  cases hi : r.impressions <;> cases hc : r.ctr <;>
    simp [critical, List.mem_filter, optGt, optLt, hi, hc, and_assoc, and_comm]

lemma mem_surge_alerts_iff (df : List Row) (r : Row) :
    r ∈ surge_alerts df ↔
      r ∈ df ∧ (∃ i, r.impressions = some i ∧ 1000 < i) ∧
        (∃ k, r.clicks = some k ∧ k < 10) ∧ (∃ c, r.ctr = some c ∧ c < 1) := by
  cases hi : r.impressions <;> cases hk : r.clicks <;> cases hc : r.ctr <;>
    simp [surge_alerts, List.mem_filter, optGt, optLt, hi, hk, hc, and_assoc]

lemma mem_warnings_iff (df : List Row) (r : Row) :
    r ∈ warnings df ↔
      r ∈ df ∧ (∃ i, r.impressions = some i ∧ 1000 < i) ∧
        (∃ k, r.clicks = some k ∧ k < 10) := by
  cases hi : r.impressions <;> cases hk : r.clicks <;>
    simp [warnings, List.mem_filter, optGt, optLt, hi, hk, and_assoc]

lemma mem_booster_alerts_iff (df : List Row) (r : Row) :
    r ∈ booster_alerts df ↔
      r ∈ df ∧ (∃ c, r.ctr = some c ∧ 10 < c) ∧
        (∃ p, r.position = some p ∧ 10 < p) := by
  cases hc : r.ctr <;> cases hp : r.position <;>
    simp [booster_alerts, List.mem_filter, optGt, hc, hp, and_assoc]

lemma mem_wins_iff (df : List Row) (r : Row) :
    r ∈ wins df ↔
      r ∈ df ∧ (∃ c, r.ctr = some c ∧ 10 < c) ∧
        (∃ p, r.position = some p ∧ 10 < p) := by
  cases hc : r.ctr <;> cases hp : r.position <;>
    simp [wins, List.mem_filter, optGt, hc, hp, and_assoc]

lemma colSum_eq_sum_filterMap (xs : List (Option ℚ)) :
    colSum xs = (xs.filterMap id).sum := by
  induction xs with
  | nil => rfl
  | cons x t ih =>
    cases x with
    | none =>
        rw [show colSum (none :: t) = colSum t from rfl, ih]
        simp [List.filterMap_cons]
    | some v =>
        rw [show colSum (some v :: t) = v + colSum t from rfl, ih]
        simp [List.filterMap_cons]

end GSC

namespace GSC

lemma colMax_ge (xs : List (Option ℚ)) (v : ℚ) (hv : some v ∈ xs) :
    ∃ m, colMax xs = some m ∧ v ≤ m := by
  induction xs with
  | nil => cases hv
  | cons x t ih =>
    rcases List.mem_cons.mp hv with h | h
    · subst h
      cases hm : colMax t with
      | none => exact ⟨v, by simp [colMax, hm], le_refl v⟩
      | some w => exact ⟨max v w, by simp [colMax, hm], le_max_left v w⟩
    · obtain ⟨m, hm, hvm⟩ := ih h
      cases x with
      | none => exact ⟨m, by simp [colMax, hm], hvm⟩
      | some u => exact ⟨max u m, by simp [colMax, hm], le_trans hvm (le_max_right u m)⟩

lemma colMax_eq_some_mem (xs : List (Option ℚ)) (m : ℚ) (h : colMax xs = some m) :
    some m ∈ xs := by
  induction xs with
  | nil => cases h
  | cons x t ih =>
    cases x with
    | none =>
        have ht : colMax t = some m := by simpa [colMax] using h
        exact List.mem_cons_of_mem _ (ih ht)
    | some u =>
        cases hm : colMax t with
        | none =>
            have hu : u = m := by simpa [colMax, hm] using h
            exact hu ▸ List.mem_cons_self _ _
        | some w =>
            have hmw : max u w = m := by simpa [colMax, hm] using h
            rcases max_choice u w with hc | hc
            · have hu : u = m := by rw [← hmw, hc]
              exact hu ▸ List.mem_cons_self _ _
            · have hw : w = m := by rw [← hmw, hc]
              exact List.mem_cons_of_mem _ (ih (by rw [hm, hw]))

lemma astypeFloat_agree (t : String) :
    (∀ v, astypeFloat t = .ok v → toNumericCoerce t = v) ∧
    (astypeFloat t = .error () → toNumericCoerce t = none) := by
  by_cases hn : t = "nan"
  · subst hn
    have hp : parseDec ['n', 'a', 'n'] = none := by decide
    constructor
    · intro v hv
      have : Except.ok (ε := Unit) (none : Option ℚ) = .ok v := by
        simpa [astypeFloat] using hv
      simp only [Except.ok.injEq] at this
      simp [toNumericCoerce, parseFloat, hp, ← this]
    · intro hv
      simp [astypeFloat] at hv
  · cases hq : parseFloat t with
    | none =>
        constructor
        · intro v hv
          simp [astypeFloat, hn, hq] at hv
        · intro _
          simp [toNumericCoerce, hq]
    | some q =>
        constructor
        · intro v hv
          have : Except.ok (ε := Unit) (some q) = .ok v := by
            simpa [astypeFloat, hn, hq] using hv
          simp only [Except.ok.injEq] at this
          simp [toNumericCoerce, hq, this]
        · intro hv
          simp [astypeFloat, hn, hq] at hv

end GSC

namespace GSC

/-- C4: for every row set, the weighted average CTR equals
(Σ ctr·impressions) / (Σ impressions) over the rows (unknown cells excluded
from the sums), and equals 0 whenever the total impressions is 0; the
weighted average position is defined identically with position in place of
ctr.  Both tab variants compute these with the same formula
(lines 56 to 59 and 146 to 149). -/
theorem weighted_averages_match_spec (df : List Row) :
    avg_ctr df = specWeightedAvgCtr df ∧
    avg_position df = specWeightedAvgPosition df ∧
    (total_impressions df = 0 → avg_ctr df = 0 ∧ avg_position df = 0) := by
  have hI : total_impressions df = (df.filterMap (fun r => r.impressions)).sum := by
    rw [total_impressions, colSum_eq_sum_filterMap, List.filterMap_map]
    rfl
  have hC : colSum (df.map (fun r => mulCells r.ctr r.impressions)) =
      (df.filterMap (fun r => mulCells r.ctr r.impressions)).sum := by
    rw [colSum_eq_sum_filterMap, List.filterMap_map]
    rfl
  have hP : colSum (df.map (fun r => mulCells r.position r.impressions)) =
      (df.filterMap (fun r => mulCells r.position r.impressions)).sum := by
    rw [colSum_eq_sum_filterMap, List.filterMap_map]
    rfl
  by_cases h : total_impressions df = 0
  · refine ⟨?_, ?_, fun _ => ⟨by simp [avg_ctr, h], by simp [avg_position, h]⟩⟩
    · rw [avg_ctr, if_neg (by simp [h]), specWeightedAvgCtr, ← hI, h, div_zero]
    · rw [avg_position, if_neg (by simp [h]), specWeightedAvgPosition, ← hI, h, div_zero]
  · refine ⟨?_, ?_, fun h0 => absurd h0 h⟩
    · rw [avg_ctr, if_pos h, hC, hI, specWeightedAvgCtr]
    · rw [avg_position, if_pos h, hP, hI, specWeightedAvgPosition]

/-- Witness for the zero-impressions hypothesis of the C4 theorem, at the
empty row set. -/
theorem weighted_averages_match_spec_witness :
    total_impressions [] = 0 ∧ avg_ctr [] = 0 ∧ avg_position [] = 0 :=
  ⟨rfl, (weighted_averages_match_spec []).2.2 rfl⟩

/-- C5: in both variants a row is an Opportunity exactly when its position
lies in the closed interval [5, 15] and its ctr is strictly below 5
(lines 73 and 204); in particular position 8 with ctr 3 qualifies and
position 8 with ctr 6 does not. -/
theorem opportunity_iff_position_window_and_low_ctr (df : List Row) (r : Row) :
    (r ∈ opportunities df ↔
      r ∈ df ∧ (∃ p, r.position = some p ∧ 5 ≤ p ∧ p ≤ 15) ∧
        (∃ c, r.ctr = some c ∧ c < 5)) ∧
    (r ∈ opp df ↔
      r ∈ df ∧ (∃ p, r.position = some p ∧ 5 ≤ p ∧ p ≤ 15) ∧
        (∃ c, r.ctr = some c ∧ c < 5)) ∧
    oppRow ∈ opportunities [oppRow, noOppRow] ∧
    noOppRow ∉ opportunities [oppRow, noOppRow] ∧
    oppRow ∈ opp [oppRow, noOppRow] ∧
    noOppRow ∉ opp [oppRow, noOppRow] := by
  refine ⟨mem_opportunities_iff df r, mem_opp_iff df r, ?_, ?_, ?_, ?_⟩
  · exact (mem_opportunities_iff _ _).mpr
      ⟨by simp, ⟨8, rfl, by norm_num, by norm_num⟩, ⟨3, rfl, by norm_num⟩⟩
  · intro hmem
    obtain ⟨-, -, c, hc, hlt⟩ := (mem_opportunities_iff _ _).mp hmem
    rw [show noOppRow.ctr = some 6 from rfl, Option.some.injEq] at hc
    rw [← hc] at hlt
    norm_num at hlt
  · exact (mem_opp_iff _ _).mpr
      ⟨by simp, ⟨8, rfl, by norm_num, by norm_num⟩, ⟨3, rfl, by norm_num⟩⟩
  · intro hmem
    obtain ⟨-, -, c, hc, hlt⟩ := (mem_opp_iff _ _).mp hmem
    rw [show noOppRow.ctr = some 6 from rfl, Option.some.injEq] at hc
    rw [← hc] at hlt
    norm_num at hlt

/-- C6: in both variants a row is a Critical / low-CTR alert exactly when
its impressions exceed 1000 strictly and its ctr is strictly below 1
(lines 85 and 158). -/
theorem critical_iff_high_impressions_low_ctr (df : List Row) (r : Row) :
    (r ∈ low_ctr_alerts df ↔
      r ∈ df ∧ (∃ i, r.impressions = some i ∧ 1000 < i) ∧
        (∃ c, r.ctr = some c ∧ c < 1)) ∧
    (r ∈ critical df ↔
      r ∈ df ∧ (∃ i, r.impressions = some i ∧ 1000 < i) ∧
        (∃ c, r.ctr = some c ∧ c < 1)) :=
  ⟨mem_low_ctr_alerts_iff df r, mem_critical_iff df r⟩

/-- C7: the tab1 surge alert requires impressions > 1000, clicks < 10 and
additionally ctr < 1 (line 86), while the tab2 warning requires only
impressions > 1000 and clicks < 10 (line 159); a row with impressions 2000,
ctr 0.5 and clicks 5 lands in the Critical bucket and the Warning bucket of
both variants. -/
theorem warning_buckets_and_overlap (df : List Row) (r : Row) :
    (r ∈ surge_alerts df ↔
      r ∈ df ∧ (∃ i, r.impressions = some i ∧ 1000 < i) ∧
        (∃ k, r.clicks = some k ∧ k < 10) ∧ (∃ c, r.ctr = some c ∧ c < 1)) ∧
    (r ∈ warnings df ↔
      r ∈ df ∧ (∃ i, r.impressions = some i ∧ 1000 < i) ∧
        (∃ k, r.clicks = some k ∧ k < 10)) ∧
    alertRow ∈ low_ctr_alerts [alertRow] ∧
    alertRow ∈ surge_alerts [alertRow] ∧
    alertRow ∈ critical [alertRow] ∧
    alertRow ∈ warnings [alertRow] := by
  refine ⟨mem_surge_alerts_iff df r, mem_warnings_iff df r, ?_, ?_, ?_, ?_⟩
  · exact (mem_low_ctr_alerts_iff _ _).mpr
      ⟨by simp, ⟨2000, rfl, by norm_num⟩, ⟨1/2, rfl, by norm_num⟩⟩
  · exact (mem_surge_alerts_iff _ _).mpr
      ⟨by simp, ⟨2000, rfl, by norm_num⟩, ⟨5, rfl, by norm_num⟩, ⟨1/2, rfl, by norm_num⟩⟩
  · exact (mem_critical_iff _ _).mpr
      ⟨by simp, ⟨2000, rfl, by norm_num⟩, ⟨1/2, rfl, by norm_num⟩⟩
  · exact (mem_warnings_iff _ _).mpr
      ⟨by simp, ⟨2000, rfl, by norm_num⟩, ⟨5, rfl, by norm_num⟩⟩

end GSC

namespace GSC

/-- C9 amended: in the CSV variant a row is dropped exactly when all four
numeric fields are unknown (line 42), while in the Excel variant the dropna
subset also contains the `query` column (line 133), so a row is dropped
there only when the query and all four numeric fields are unknown; kept
rows pass through unchanged (the result is a sublist, no imputation). -/
theorem dropna_keeps_row_with_any_known_subset_field (df : List Row) (r : Row) :
    (r ∈ dropnaTab1 df ↔
      r ∈ df ∧ ¬(r.clicks = none ∧ r.impressions = none ∧
        r.ctr = none ∧ r.position = none)) ∧
    (r ∈ dropnaQueries df ↔
      r ∈ df ∧ ¬(r.query = none ∧ r.clicks = none ∧ r.impressions = none ∧
        r.ctr = none ∧ r.position = none)) ∧
    List.Sublist (dropnaTab1 df) df ∧ List.Sublist (dropnaQueries df) df := by
  refine ⟨?_, ?_, List.filter_sublist df, List.filter_sublist df⟩
  · simp only [dropnaTab1, List.mem_filter, Bool.or_eq_true,
      Option.isSome_iff_ne_none, ne_eq]
    tauto
  · simp only [dropnaQueries, List.mem_filter, Bool.or_eq_true,
      Option.isSome_iff_ne_none, ne_eq]
    tauto

/-- C9 counterexample: a row whose query is known but whose four numeric
fields are all unknown is dropped by the CSV variant yet kept by the Excel
variant, so "dropped if and only if all of clicks, impressions, ctr,
position are absent" is false for the Excel variant. -/
theorem queries_dropna_keeps_all_nan_numeric_row :
    allNanButQueryRow.clicks = none ∧ allNanButQueryRow.impressions = none ∧
    allNanButQueryRow.ctr = none ∧ allNanButQueryRow.position = none ∧
    dropnaQueries [allNanButQueryRow] = [allNanButQueryRow] ∧
    dropnaTab1 [allNanButQueryRow] = [] :=
  ⟨rfl, rfl, rfl, rfl, rfl, rfl⟩

/-- C10: a retained row whose ctr is unknown is classified into none of the
Opportunity, Critical or Win buckets of either variant, because every one of
those predicates compares the ctr cell and a comparison against an unknown
cell is false (lines 73, 85, 87, 158, 160, 204). -/
theorem unknown_ctr_rows_never_classified (df : List Row) (r : Row)
    (h : r.ctr = none) :
    r ∉ opportunities df ∧ r ∉ low_ctr_alerts df ∧ r ∉ booster_alerts df ∧
    r ∉ opp df ∧ r ∉ critical df ∧ r ∉ wins df := by
  refine ⟨fun hm => ?_, fun hm => ?_, fun hm => ?_,
    fun hm => ?_, fun hm => ?_, fun hm => ?_⟩
  · obtain ⟨-, -, c, hc, -⟩ := (mem_opportunities_iff df r).mp hm
    rw [h] at hc
    cases hc
  · obtain ⟨-, -, c, hc, -⟩ := (mem_low_ctr_alerts_iff df r).mp hm
    rw [h] at hc
    cases hc
  · obtain ⟨-, ⟨c, hc, -⟩, -⟩ := (mem_booster_alerts_iff df r).mp hm
    rw [h] at hc
    cases hc
  · obtain ⟨-, -, c, hc, -⟩ := (mem_opp_iff df r).mp hm
    rw [h] at hc
    cases hc
  · obtain ⟨-, -, c, hc, -⟩ := (mem_critical_iff df r).mp hm
    rw [h] at hc
    cases hc
  · obtain ⟨-, ⟨c, hc, -⟩, -⟩ := (mem_wins_iff df r).mp hm
    rw [h] at hc
    cases hc

/-- Witness for the unknown-ctr hypothesis of the C10 theorem, at a concrete
retained partial row. -/
theorem unknown_ctr_rows_never_classified_witness :
    noCtrRow.ctr = none ∧
    (noCtrRow ∉ opportunities [noCtrRow] ∧ noCtrRow ∉ low_ctr_alerts [noCtrRow] ∧
     noCtrRow ∉ booster_alerts [noCtrRow] ∧ noCtrRow ∉ opp [noCtrRow] ∧
     noCtrRow ∉ critical [noCtrRow] ∧ noCtrRow ∉ wins [noCtrRow]) :=
  ⟨rfl, unknown_ctr_rows_never_classified [noCtrRow] noCtrRow rfl⟩

end GSC

namespace GSC

/-- C2 amended: in the Excel variant (lines 130 and 131) the rescale is a
single dataset-global decision — the result is either the whole column
multiplied by 100 or the untouched column, never a mix; the column is
multiplied exactly when a finite ctr value exists and every finite ctr value
is at most 1 (that is, when the maximum finite ctr is at most 1), and left
untouched when some finite ctr value exceeds 1.  The CSV variant performs no
rescale at all (see the counterexample theorem). -/
theorem excel_ctr_rescale_is_global (df : List Row) :
    (tab2Rescale df = df.map scaleCtrRow ∨ tab2Rescale df = df) ∧
    (((∃ r ∈ df, r.ctr.isSome = true) ∧ (∀ r ∈ df, ∀ v, r.ctr = some v → v ≤ 1)) →
      tab2Rescale df = df.map scaleCtrRow) ∧
    ((∃ r ∈ df, ∃ v, r.ctr = some v ∧ 1 < v) → tab2Rescale df = df) := by
  refine ⟨?_, ?_, ?_⟩
  · by_cases h : ctrMaxLeOne df = true
    · exact Or.inl (by simp [tab2Rescale, h])
    · exact Or.inr (by simp [tab2Rescale, h])
  · rintro ⟨⟨r0, hr0, hsome⟩, hall⟩
    obtain ⟨v, hv⟩ := Option.isSome_iff_exists.mp hsome
    have hmem : some v ∈ df.map (fun r => r.ctr) := List.mem_map.mpr ⟨r0, hr0, hv⟩
    obtain ⟨m, hm, hvm⟩ := colMax_ge _ v hmem
    obtain ⟨r1, hr1, hr1c⟩ := List.mem_map.mp (colMax_eq_some_mem _ m hm)
    have hm1 : m ≤ 1 := hall r1 hr1 m hr1c
    have hcond : ctrMaxLeOne df = true := by
      simp [ctrMaxLeOne, hm, hm1]
    simp [tab2Rescale, hcond]
  · rintro ⟨r0, hr0, v, hv, h1v⟩
    have hmem : some v ∈ df.map (fun r => r.ctr) := List.mem_map.mpr ⟨r0, hr0, hv⟩
    obtain ⟨m, hm, hvm⟩ := colMax_ge _ v hmem
    have hcond : ctrMaxLeOne df = false := by
      simp only [ctrMaxLeOne, hm, decide_eq_false_iff_not, not_le]
      exact lt_of_lt_of_le h1v hvm
    simp [tab2Rescale, hcond]

/-- Witness for the rescale hypothesis of the C2 theorem: a one-row dataset
with ctr one half is wholly multiplied by 100. -/
theorem excel_ctr_rescale_is_global_witness :
    ((1:ℚ)/2 ≤ 1) ∧ tab2Rescale [fractionCtrRow] = [fractionCtrRow].map scaleCtrRow := by
  refine ⟨by norm_num,
    (excel_ctr_rescale_is_global [fractionCtrRow]).2.1 ⟨⟨fractionCtrRow, by simp, rfl⟩, ?_⟩⟩
  intro r hr v hv
  rw [List.mem_singleton] at hr
  subst hr
  rw [show fractionCtrRow.ctr = some (1/2) from rfl, Option.some.injEq] at hv
  rw [← hv]
  norm_num

/-- C2 counterexample: the CSV variant never rescales — loading a CSV
dataset whose only ctr value is 0.5 (so the maximum finite ctr is at most 1)
leaves the ctr column at 0.5 instead of multiplying it by 100, refuting "for
every loaded dataset ... if that maximum is ≤ 1.0 it multiplies the entire
ctr column by 100". -/
theorem csv_variant_never_rescales_ctr :
    (tab1Pipeline [rawHalf]).map (fun r => r.ctr) = [some ((1:ℚ)/2)] ∧
    colMax ((tab1Pipeline [rawHalf]).map (fun r => r.ctr)) = some ((1:ℚ)/2) ∧
    ((1:ℚ)/2 ≤ 1) ∧ ((1:ℚ)/2) ≠ ((1:ℚ)/2) * 100 := by
  have h05 : parseDec "0.5".toList = some ⟨true, 0, 5, 1⟩ := by decide
  have h10 : parseDec "10".toList = some ⟨true, 10, 0, 0⟩ := by decide
  have h100 : parseDec "100".toList = some ⟨true, 100, 0, 0⟩ := by decide
  have h3 : parseDec "3".toList = some ⟨true, 3, 0, 0⟩ := by decide
  have hs10 : stripChar ',' "10" = "10" := by decide
  have hs100 : stripChar ',' "100" = "100" := by decide
  have hs3 : stripChar ',' "3" = "3" := by decide
  have hs05 : stripChar ',' (stripChar '%' "0.5") = "0.5" := by decide
  have ha : tab1Num "10" = some 10 := by
    rw [tab1Num, hs10, toNumericCoerce, parseFloat, h10, Option.map_some']
    norm_num [ratOfParsed]
  have hb : tab1Num "100" = some 100 := by
    rw [tab1Num, hs100, toNumericCoerce, parseFloat, h100, Option.map_some']
    norm_num [ratOfParsed]
  have hcv : tab1Ctr "0.5" = some ((1:ℚ)/2) := by
    rw [tab1Ctr, hs05, toNumericCoerce, parseFloat, h05, Option.map_some']
    norm_num [ratOfParsed]
  have hd : tab1Num "3" = some 3 := by
    rw [tab1Num, hs3, toNumericCoerce, parseFloat, h3, Option.map_some']
    norm_num [ratOfParsed]
  have hrow : coerceRowTab1 rawHalf =
      ⟨some "q", some 10, some 100, some ((1:ℚ)/2), some 3⟩ := by
    simp [coerceRowTab1, rawHalf, ha, hb, hcv, hd]
  have hpipe : tab1Pipeline [rawHalf] =
      [⟨some "q", some 10, some 100, some ((1:ℚ)/2), some 3⟩] := by
    simp [tab1Pipeline, dropnaTab1, hrow]
  refine ⟨by rw [hpipe]; rfl, by rw [hpipe]; rfl, by norm_num, by norm_num⟩

/-- C3 amended: the silent-coercion behaviour holds only in the CSV variant
(lines 37 to 41) — wherever the Excel variant parses a cell successfully the
CSV variant produces the same value, but where the Excel variant raises on a
non-parseable cell (lines 119 to 128) the CSV variant silently coerces the
cell to an unknown value instead. -/
theorem csv_coerces_silently_excel_raises (s : String) :
    (∀ v, tab2Num s = .ok v → tab1Num s = v) ∧
    (tab2Num s = .error () → tab1Num s = none) ∧
    (∀ v, tab2Ctr s = .ok v → tab1Ctr s = v) ∧
    (tab2Ctr s = .error () → tab1Ctr s = none) :=
  ⟨fun v hv => (astypeFloat_agree (stripChar ',' s)).1 v hv,
   fun hv => (astypeFloat_agree (stripChar ',' s)).2 hv,
   fun v hv => (astypeFloat_agree (stripChar ',' (stripChar '%' s))).1 v hv,
   fun hv => (astypeFloat_agree (stripChar ',' (stripChar '%' s))).2 hv⟩

/-- Witness for the error hypothesis of the C3 theorem, at a concrete
unparseable cell. -/
theorem csv_coerces_silently_excel_raises_witness :
    tab2Num "oops" = .error () ∧ tab1Num "oops" = none :=
  ⟨rfl, (csv_coerces_silently_excel_raises "oops").2.1 rfl⟩

/-- C3 counterexample: in the Excel variant a non-parseable numeric cell
does raise — both at the single-cell level and for the whole Queries-sheet
load, which aborts with an error, refuting "never raises an error or halts
processing, in any variant". -/
theorem excel_variant_raises_on_unparseable :
    tab2Num "abc" = .error () ∧ tab2QueriesPipeline [rawBad] = .error () :=
  ⟨rfl, rfl⟩

end GSC

namespace GSC

/-- C8 amended, for keywords on which the embedding is faithful (every
character ASCII and no regex metacharacter — pandas `str.contains` defaults
to `regex=True`, so a metacharacter keyword is interpreted as a regular
expression or raises `re.error`, behaviour outside this statement): when the
minimum-impressions threshold is positive, the filtered subset holds exactly
the rows whose impressions are known and at least the threshold and (when a
keyword is given) whose query contains the keyword case-insensitively; when
the threshold is 0 the impressions condition is skipped entirely, so rows
with an unknown impressions cell are kept (see the counterexample theorem).
The filtered subset feeds only the KPI block: every classification bucket is
computed from the unfiltered table and does not depend on the filter
settings (lines 48 to 52 and 73 to 87). -/
theorem filter_feeds_only_kpis (df : List Row) (m m2 : ℕ) (kw kw2 : String) (r : Row)
    (_hkw : isLiteralKeyword kw = true) (_hkw2 : isLiteralKeyword kw2 = true) :
    (0 < m →
      (r ∈ (tab1Analyze df m kw).filteredRows ↔
        r ∈ df ∧ (∃ v, r.impressions = some v ∧ (m : ℚ) ≤ v) ∧
          (kw ≠ "" → queryContains r.query kw = true))) ∧
    (m = 0 →
      (r ∈ (tab1Analyze df m kw).filteredRows ↔
        r ∈ df ∧ (kw ≠ "" → queryContains r.query kw = true))) ∧
    (tab1Analyze df m kw).oppRows = opportunities df ∧
    (tab1Analyze df m kw).oppRows = (tab1Analyze df m2 kw2).oppRows ∧
    (tab1Analyze df m kw).lowCtrRows = low_ctr_alerts df ∧
    (tab1Analyze df m kw).lowCtrRows = (tab1Analyze df m2 kw2).lowCtrRows ∧
    (tab1Analyze df m kw).surgeRows = surge_alerts df ∧
    (tab1Analyze df m kw).surgeRows = (tab1Analyze df m2 kw2).surgeRows ∧
    (tab1Analyze df m kw).boosterRows = booster_alerts df ∧
    (tab1Analyze df m kw).boosterRows = (tab1Analyze df m2 kw2).boosterRows := by
  refine ⟨?_, ?_, rfl, rfl, rfl, rfl, rfl, rfl, rfl, rfl⟩
  · intro hm
    show r ∈ df_filtered df m kw ↔ _
    rw [df_filtered]
    by_cases hk : kw = ""
    · subst hk
      simp [hm, List.mem_filter, optGe_iff]
    · simp only [hm, if_true, if_pos hm, ne_eq, hk, not_false_eq_true, if_pos,
        List.mem_filter, optGe_iff, Bool.and_eq_true]
      constructor
      · rintro ⟨⟨hdf, v, hv, hle⟩, hq⟩
        exact ⟨hdf, ⟨v, hv, hle⟩, fun _ => hq⟩
      · rintro ⟨hdf, ⟨v, hv, hle⟩, hq⟩
        exact ⟨⟨hdf, v, hv, hle⟩, hq trivial⟩
  · intro hm
    subst hm
    show r ∈ df_filtered df 0 kw ↔ _
    rw [df_filtered]
    by_cases hk : kw = ""
    · subst hk
      simp
    · simp [hk, List.mem_filter]

/-- Witness for the hypotheses of the C8 theorem: the keyword alpha is a
literal keyword, and with threshold 10 a row with 50 impressions and a
matching query is in the filtered subset. -/
theorem filter_feeds_only_kpis_witness :
    (0:ℕ) < 10 ∧ isLiteralKeyword "alpha" = true ∧
    kwRow ∈ (tab1Analyze [kwRow] 10 "alpha").filteredRows := by
  refine ⟨by norm_num, by decide, ?_⟩
  have h := (filter_feeds_only_kpis [kwRow] 10 0 "alpha" "" kwRow
    (by decide) (by decide)).1 (by norm_num)
  exact h.mpr ⟨by simp, ⟨50, rfl, by norm_num⟩, fun _ => by decide⟩

/-- C8 counterexample: with threshold 0 the code applies no impressions
filter at all, so a row whose impressions cell is unknown is returned even
though it does not satisfy "impressions ≥ threshold" (a comparison against
an unknown cell is false, as the filter itself treats it when the threshold
is positive); hence "returns exactly the rows with impressions ≥ threshold"
is false at threshold 0. -/
theorem filter_skipped_at_zero_threshold :
    unknownImprRow ∈ (tab1Analyze [unknownImprRow] 0 "").filteredRows ∧
    ¬(∃ v, unknownImprRow.impressions = some v ∧ (0:ℚ) ≤ v) := by
  constructor
  · show unknownImprRow ∈ df_filtered [unknownImprRow] 0 ""
    simp [df_filtered]
  · rintro ⟨v, hv, -⟩
    rw [show unknownImprRow.impressions = none from rfl] at hv
    cases hv

/-- C1 (modelled from the spec, see `loadCSVChecked`): whenever a required
column is missing after header normalization, the checked CSV load halts
with a MissingColumns error that names the missing column, and no processed
table — hence no aggregate, classification or export — is produced. -/
theorem missing_required_column_halts_load (headers : List String)
    (raw : List RawRow) (c : String) (hreq : c ∈ requiredColumns)
    (hmiss : c ∉ canonicalHeaders headers) :
    ∃ ms, loadCSVChecked headers raw = .error ms ∧ c ∈ ms ∧
      ∀ out, loadCSVChecked headers raw ≠ .ok out := by
  have hc : c ∈ missingColumns headers :=
    List.mem_filter.mpr ⟨hreq, by simpa using hmiss⟩
  have hne : missingColumns headers ≠ [] := by
    intro h
    rw [h] at hc
    cases hc
  refine ⟨missingColumns headers, ?_, hc, ?_⟩
  · rw [loadCSVChecked, if_neg hne]
  · intro out h
    rw [loadCSVChecked, if_neg hne] at h
    cases h

/-- Witness for the C1 theorem: a header row lacking any impressions column
(after normalization) is rejected with an error naming impressions. -/
theorem missing_required_column_halts_load_witness :
    "impressions" ∈ requiredColumns ∧
    "impressions" ∉ canonicalHeaders ["Top Queries", "Clicks", "CTR", "Position"] ∧
    ∃ ms, loadCSVChecked ["Top Queries", "Clicks", "CTR", "Position"] [] = .error ms ∧
      "impressions" ∈ ms ∧
      ∀ out, loadCSVChecked ["Top Queries", "Clicks", "CTR", "Position"] [] ≠ .ok out :=
  ⟨by decide, by decide,
   missing_required_column_halts_load ["Top Queries", "Clicks", "CTR", "Position"] []
     "impressions" (by decide) (by decide)⟩

end GSC
